import Mathlib

/-
A verification development for the refresh-rate and vsync scheduling core
found in services/surfaceflinger/Scheduler/Scheduler.cpp.  The C++ class
state that the verified claims touch is embedded shallowly as the
structure SchedState below; external collaborators (the refresh-rate
policy RefreshRateConfigs, and the host callback interface
ISchedulerCallback) are modelled as records of pure functions in Ctx,
and the host callbacks that the scheduler fires are recorded as a list
of Event values returned next to the updated state.
-/

namespace Sched

/-- Timer state as used by the idle and display-power timers. -/
inductive TimerState
  | Reset
  | Expired
deriving DecidableEq

/-- Touch state derived from the touch timer. -/
inductive TouchState
  | Active
  | Inactive
deriving DecidableEq

/-- The consideredSignals output of RefreshRateConfigs::getBestRefreshRate. -/
structure GlobalSignals where
  touch : Bool
  idle : Bool
deriving DecidableEq

/-- A display refresh rate: mode id, frames per second and vsync period in
nanoseconds.  Fps values are modelled as rationals. -/
structure RefreshRate where
  modeId : Nat
  fps : Rat
  vsyncPeriod : Int
deriving DecidableEq

/-- The ModeEvent argument of ISchedulerCallback::changeRefreshRate. -/
inductive ModeEvent
  | None
  | Changed
deriving DecidableEq

/-- The params cached by onPrimaryDisplayModeChanged and replayed by
dispatchCachedReportedMode. -/
structure CachedParams where
  handle : Nat
  displayId : Nat
  modeId : Nat
  vsyncPeriod : Int
deriving DecidableEq

/-- Outward calls made by the scheduler: host callbacks
(ISchedulerCallback) and the tracker and controller calls that the
verified claims observe. -/
inductive Event
  | setVsyncEnabled (b : Bool)
  | changeRefreshRate (rate : RefreshRate) (ev : ModeEvent)
  | triggerOnFrameRateOverridesChanged
  | onModeChanged (handle : Nat) (displayId : Nat) (modeId : Nat) (vsyncPeriod : Int)
  | resetModel
  | startPeriodTransition (period : Int)
deriving DecidableEq

/-- The Features record guarded by mFeatureStateLock. -/
structure Features where
  modeId : Option Nat
  contentRequirements : Nat
  idleTimer : TimerState
  touch : TouchState
  displayPowerTimer : TimerState
  isDisplayPowerStateNormal : Bool
  cachedModeChangedParams : Option CachedParams
deriving DecidableEq

/-- The scheduler state touched by the verified claims: the Features
record, the two frame-rate override maps (modelled as association
lists keyed by uid), the hardware-vsync booleans, the thermal cap, the
vsync-injection fields, the connection-handle counter and the
last-resync timestamp.  The three hasX flags model whether the
corresponding optional OneShotTimer was constructed. -/
structure SchedState where
  features : Features
  overridesBackdoor : List (Nat × Rat)
  overridesByContent : List (Nat × Rat)
  hwVsyncAvailable : Bool
  primaryHWVsyncEnabled : Bool
  thermalFps : Rat
  injectVSyncs : Bool
  injectorHandle : Option Nat
  nextConnectionHandleId : Nat
  lastResyncTime : Int
  hasIdleTimer : Bool
  hasTouchTimer : Bool
  hasDisplayPowerTimer : Bool
deriving DecidableEq

/-- The external refresh-rate policy (RefreshRateConfigs), modelled as a
record of pure functions.  getBestRefreshRate takes the content summary
(abstract, a Nat tag), the touch and idle booleans, and returns the
chosen rate together with the consideredSignals it reports. -/
structure RefreshRateConfigs where
  canSwitch : Bool
  supportsFrameRateOverride : Bool
  currentRefreshRate : RefreshRate
  refreshRateFromModeId : Nat → RefreshRate
  maxRefreshRateByPolicy : RefreshRate
  bestRefreshRate : Nat → Bool → Bool → RefreshRate × GlobalSignals
  frameRateOverrides : Nat → Rat → Bool → List (Nat × Rat)

/-- The fixed collaborators of a scheduler: the policy, the host's
getModeFromFps lookup (returning the id of the mode for a thermal cap)
and the tracker's isVSyncInPhase query. -/
structure Ctx where
  configs : RefreshRateConfigs
  getModeFromFps : Rat → Nat
  isVSyncInPhase : Int → Rat → Bool

/-- Lookup in an override map (std::unordered_map::find). -/
def lookupKV : List (Nat × Rat) → Nat → Option Rat
  | [], _ => none
  | p :: rest, u => if p.1 = u then some p.2 else lookupKV rest u

/-- Insert or overwrite in an override map (map[uid] = fps). -/
def insertKV : List (Nat × Rat) → Nat → Rat → List (Nat × Rat)
  | [], u, f => [(u, f)]
  | p :: rest, u, f => if p.1 = u then (u, f) :: rest else p :: insertKV rest u f

/-- Erase a uid from an override map (map.erase(uid)); removes every
entry with that key, which on the unique-key maps of the source is the
single entry. -/
def eraseKV : List (Nat × Rat) → Nat → List (Nat × Rat)
  | [], _ => []
  | p :: rest, u => if p.1 = u then eraseKV rest u else p :: eraseKV rest u

/-- Fps::equalsWithMargin with the 0.001 Hz tolerance. -/
def equalsWithMargin (a b : Rat) : Bool :=
  decide (abs (a - b) < 1 / 1000)

/-- std::equal over the two override maps with the equalsWithMargin
comparator, as used by updateFrameRateOverrides. -/
def overridesEqual : List (Nat × Rat) → List (Nat × Rat) → Bool
  | [], [] => true
  | p :: rest, q :: rest2 =>
      decide (p.1 = q.1) && equalsWithMargin p.2 q.2 && overridesEqual rest rest2
  | _, _ => false

/-- The (int32_t) cast applied to an Fps value in the thermal-clamp
comparisons: truncation toward zero. -/
def i32trunc (q : Rat) : Int :=
  Int.tdiv q.num q.den

/-- The fields of the scheduler state that
calculateRefreshRateModeId reads. -/
structure DecisionInputs where
  hasIdleTimer : Bool
  hasTouchTimer : Bool
  hasDisplayPowerTimer : Bool
  idleTimer : TimerState
  touch : TouchState
  displayPowerTimer : TimerState
  isDisplayPowerStateNormal : Bool
  contentRequirements : Nat
deriving DecidableEq

/-- Project the decision-relevant fields out of the scheduler state. -/
def decisionInputs (s : SchedState) : DecisionInputs :=
  { hasIdleTimer := s.hasIdleTimer
    hasTouchTimer := s.hasTouchTimer
    hasDisplayPowerTimer := s.hasDisplayPowerTimer
    idleTimer := s.features.idleTimer
    touch := s.features.touch
    displayPowerTimer := s.features.displayPowerTimer
    isDisplayPowerStateNormal := s.features.isDisplayPowerStateNormal
    contentRequirements := s.features.contentRequirements }

/-- Scheduler::calculateRefreshRateModeId, as a function of the fields
it reads.  If the display-power timer exists and the display power
state is not normal or that timer is in Reset, the policy's max rate is
chosen and consideredSignals stays cleared; otherwise the policy's
getBestRefreshRate decides. -/
def calcRefreshRateModeIdFrom (c : Ctx) (d : DecisionInputs) : Nat × GlobalSignals :=
  if d.hasDisplayPowerTimer &&
      (!d.isDisplayPowerStateNormal || d.displayPowerTimer == TimerState.Reset) then
    (c.configs.maxRefreshRateByPolicy.modeId, { touch := false, idle := false })
  else
    let touchActive := d.hasTouchTimer && d.touch == TouchState.Active
    let idle := d.hasIdleTimer && d.idleTimer == TimerState.Expired
    let br := c.configs.bestRefreshRate d.contentRequirements touchActive idle
    (br.1.modeId, br.2)

/-- Scheduler::calculateRefreshRateModeId. -/
def calculateRefreshRateModeId (c : Ctx) (s : SchedState) : Nat × GlobalSignals :=
  calcRefreshRateModeIdFrom c (decisionInputs s)

/-- The mode id a decision run chooses from state s. -/
def chosenModeId (c : Ctx) (s : SchedState) : Nat :=
  (calculateRefreshRateModeId c s).1

/-- The consideredSignals a decision run reports from state s. -/
def chosenSignals (c : Ctx) (s : SchedState) : GlobalSignals :=
  (calculateRefreshRateModeId c s).2

/-- Scheduler::getFrameRateOverride: nothing unless the policy supports
frame-rate overrides; otherwise the backdoor map shadows the
content-derived map. -/
def getFrameRateOverride (c : Ctx) (s : SchedState) (uid : Nat) : Option Rat :=
  if !c.configs.supportsFrameRateOverride then none
  else
    match lookupKV s.overridesBackdoor uid with
    | some f => some f
    | none => lookupKV s.overridesByContent uid

/-- Scheduler::isVsyncValid: a vsync is valid for a uid unless an
override exists and the timestamp is out of phase with it. -/
def isVsyncValid (c : Ctx) (s : SchedState) (ts : Int) (uid : Nat) : Bool :=
  match getFrameRateOverride c s uid with
  | none => true
  | some f => c.isVSyncInPhase ts f

/-- Scheduler::makeThrottleVsyncCallback: an empty callback (none) when
the policy does not support frame-rate overrides, otherwise the
negation of isVsyncValid. -/
def makeThrottleVsyncCallback (c : Ctx) : Option (Int → Nat → SchedState → Bool) :=
  if !c.configs.supportsFrameRateOverride then none
  else some fun ts uid s => !isVsyncValid c s ts uid

/-- The FrameRateOverride argument of setPreferredRefreshRateForUid. -/
structure FrameRateOverride where
  uid : Nat
  frameRateHz : Rat

/-- Scheduler::setPreferredRefreshRateForUid: values in the open
interval (0, 1) are dropped; a non-zero value is stored in the backdoor
map; zero erases the backdoor entry. -/
def setPreferredRefreshRateForUid (fro : FrameRateOverride) (s : SchedState) : SchedState :=
  if 0 < fro.frameRateHz ∧ fro.frameRateHz < 1 then s
  else if fro.frameRateHz ≠ 0 then
    { s with overridesBackdoor := insertKV s.overridesBackdoor fro.uid fro.frameRateHz }
  else
    { s with overridesBackdoor := eraseKV s.overridesBackdoor fro.uid }

/-- Scheduler::updateFrameRateOverrides: when the policy supports
overrides and the run is not idle-considered, recompute the
content-derived map from the policy and replace the stored one when it
changed under the equalsWithMargin comparison; returns whether it
changed. -/
def updateFrameRateOverrides (c : Ctx) (sig : GlobalSignals) (displayRefreshRate : Rat)
    (s : SchedState) : SchedState × Bool :=
  if !c.configs.supportsFrameRateOverride then (s, false)
  else if !sig.idle then
    let fro := c.configs.frameRateOverrides s.features.contentRequirements
      displayRefreshRate sig.touch
    if !overridesEqual s.overridesByContent fro then
      ({ s with overridesByContent := fro }, true)
    else (s, false)
  else (s, false)

/-- Scheduler::dispatchCachedReportedMode: replay the cached
mode-changed params through the cached connection, provided a mode id
and cached params exist, the stored mode id is the policy's current
one, and the cached params are stale. -/
def dispatchCachedReportedMode (c : Ctx) (s : SchedState) : SchedState × List Event :=
  match s.features.modeId with
  | none => (s, [])
  | some modeId =>
    match s.features.cachedModeChangedParams with
    | none => (s, [])
    | some cached =>
      if c.configs.currentRefreshRate.modeId ≠ modeId then (s, [])
      else
        let vsyncPeriod := (c.configs.refreshRateFromModeId modeId).vsyncPeriod
        if modeId = cached.modeId ∧ vsyncPeriod = cached.vsyncPeriod then (s, [])
        else
          let cached2 := { cached with modeId := modeId, vsyncPeriod := vsyncPeriod }
          ({ s with features := { s.features with cachedModeChangedParams := some cached2 } },
           [Event.onModeChanged cached.handle cached.displayId modeId vsyncPeriod])

/-- The outcome of one mode-selection run: the new state, the outward
calls in order, whether the cached-mode replay (dispatchCachedReportedMode)
was invoked, and the consideredSignals the run computed. -/
structure RunResult where
  state : SchedState
  events : List Event
  replayInvoked : Bool
  signals : GlobalSignals
deriving DecidableEq

/-- A run that did nothing (early return). -/
def noRun (s : SchedState) : RunResult :=
  { state := s, events := [], replayInvoked := false
    signals := { touch := false, idle := false } }

/-- The decision pipeline shared verbatim by chooseRefreshRateForContent
and handleTimerStateChanged: compute the mode id and consideredSignals,
update the frame-rate overrides, then either replay the cached mode
event (equal re-selection, non-idle) or adopt the new mode, thermal
clamp applied, and emit changeRefreshRate; finally report override
changes. -/
def runDecisionCore (c : Ctx) (s : SchedState) : RunResult :=
  let choice := calculateRefreshRateModeId c s
  let newModeId := choice.1
  let sig := choice.2
  let newRefreshRate := c.configs.refreshRateFromModeId newModeId
  let upd := updateFrameRateOverrides c sig newRefreshRate.fps s
  let s1 := upd.1
  let froChanged := upd.2
  let froEvents : List Event :=
    if froChanged then [Event.triggerOnFrameRateOverridesChanged] else []
  if s1.features.modeId = some newModeId then
    if sig.idle then
      { state := s1, events := froEvents, replayInvoked := false, signals := sig }
    else
      let d := dispatchCachedReportedMode c s1
      { state := d.1, events := d.2 ++ froEvents, replayInvoked := true, signals := sig }
  else
    let clamp := decide ((0 : Rat) < s1.thermalFps) &&
      decide (i32trunc s1.thermalFps < i32trunc newRefreshRate.fps)
    let adoptedId := if clamp then c.getModeFromFps s1.thermalFps else newModeId
    let s2 := { s1 with features := { s1.features with modeId := some adoptedId } }
    let reportedRate :=
      if clamp then c.configs.refreshRateFromModeId (c.getModeFromFps s1.thermalFps)
      else newRefreshRate
    let modeEvent := if sig.idle then ModeEvent.None else ModeEvent.Changed
    { state := s2, events := Event.changeRefreshRate reportedRate modeEvent :: froEvents
      replayInvoked := false, signals := sig }

/-- Which timer field handleTimerStateChanged updates, with the new
value; the three instantiations of the C++ template. -/
inductive TimerArg
  | idleArg (v : TimerState)
  | touchArg (v : TouchState)
  | powerArg (v : TimerState)
deriving DecidableEq

/-- Whether the stored timer state already equals the new one
(the compare of the compare-and-swap). -/
def slotEq (f : Features) : TimerArg → Bool
  | TimerArg.idleArg v => f.idleTimer == v
  | TimerArg.touchArg v => f.touch == v
  | TimerArg.powerArg v => f.displayPowerTimer == v

/-- Store the new timer state (the swap of the compare-and-swap). -/
def setSlot (f : Features) : TimerArg → Features
  | TimerArg.idleArg v => { f with idleTimer := v }
  | TimerArg.touchArg v => { f with touch := v }
  | TimerArg.powerArg v => { f with displayPowerTimer := v }

/-- Scheduler::chooseRefreshRateForContent: nothing if the policy
cannot switch; otherwise store the layer-history summary and run the
decision pipeline. -/
def chooseRefreshRateForContent (c : Ctx) (summary : Nat) (s : SchedState) : RunResult :=
  if !c.configs.canSwitch then noRun s
  else runDecisionCore c
    { s with features := { s.features with contentRequirements := summary } }

/-- Scheduler::handleTimerStateChanged: compare-and-swap the stored
timer state, returning immediately when unchanged; otherwise run the
decision pipeline.  The C++ return value (consideredSignals.touch, or
false on the early return) is RunResult.signals.touch. -/
def handleTimerStateChanged (c : Ctx) (arg : TimerArg) (s : SchedState) : RunResult :=
  if slotEq s.features arg then noRun s
  else runDecisionCore c { s with features := setSlot s.features arg }

/-- A mode-selection entry point together with its input: a
content-driven run carrying the layer-history summary, or a
timer-driven run carrying the timer update. -/
inductive RunInput
  | content (summary : Nat)
  | timer (arg : TimerArg)
deriving DecidableEq

/-- The state on which the decision pipeline of a run operates: the
input stored into Features. -/
def inputApplied (s : SchedState) : RunInput → SchedState
  | RunInput.content summary =>
      { s with features := { s.features with contentRequirements := summary } }
  | RunInput.timer arg => { s with features := setSlot s.features arg }

/-- Whether the run reaches the decision pipeline: a content run needs
the policy to allow switching, a timer run needs an actual state
change. -/
def runsPipeline (c : Ctx) (s : SchedState) : RunInput → Prop
  | RunInput.content _ => c.configs.canSwitch = true
  | RunInput.timer arg => slotEq s.features arg = false

instance (c : Ctx) (s : SchedState) (inp : RunInput) : Decidable (runsPipeline c s inp) := by
  cases inp <;> simp only [runsPipeline] <;> infer_instance

/-- One mode-selection run, dispatching on the input kind. -/
def runModeSelection (c : Ctx) (inp : RunInput) (s : SchedState) : RunResult :=
  match inp with
  | RunInput.content summary => chooseRefreshRateForContent c summary s
  | RunInput.timer arg => handleTimerStateChanged c arg s

/-- Whether an event is a changeRefreshRate host callback. -/
def isChangeEvent : Event → Bool
  | Event.changeRefreshRate _ _ => true
  | _ => false

/-- How many changeRefreshRate callbacks a list of events contains. -/
def countChange (l : List Event) : Nat :=
  (l.filter isChangeEvent).length

/-- Whether the thermal clamp fires for the mode chosen from state s:
a positive cap whose int32 truncation is exceeded by the truncation of
the chosen fps. -/
def clampFires (c : Ctx) (s : SchedState) : Bool :=
  decide ((0 : Rat) < s.thermalFps) &&
    decide (i32trunc s.thermalFps <
      i32trunc (c.configs.refreshRateFromModeId (chosenModeId c s)).fps)

/-- The side condition under which back-to-back runs cannot re-emit:
when the thermal clamp fires on the pipeline state, the host's
getModeFromFps must return the chosen mode itself. -/
def noClampRedirect (c : Ctx) (st : SchedState) : Prop :=
  (0 : Rat) < st.thermalFps →
  i32trunc st.thermalFps <
      i32trunc (c.configs.refreshRateFromModeId (chosenModeId c st)).fps →
  c.getModeFromFps st.thermalFps = chosenModeId c st

instance (c : Ctx) (st : SchedState) : Decidable (noClampRedirect c st) := by
  unfold noClampRedirect; infer_instance

/-- Scheduler::enableHardwareVsync: acts only when hardware vsync is
not yet enabled and still available; then it resets the tracker model,
asks the host to enable vsync, and records the enabled state. -/
def enableHardwareVsync (s : SchedState) : SchedState × List Event :=
  if !s.primaryHWVsyncEnabled && s.hwVsyncAvailable then
    ({ s with primaryHWVsyncEnabled := true },
     [Event.resetModel, Event.setVsyncEnabled true])
  else (s, [])

/-- Scheduler::disableHardwareVsync: if enabled, ask the host to
disable vsync and clear the enabled flag; when makeUnavailable, also
clear the available flag. -/
def disableHardwareVsync (makeUnavailable : Bool) (s : SchedState) : SchedState × List Event :=
  let p :=
    if s.primaryHWVsyncEnabled then
      ({ s with primaryHWVsyncEnabled := false }, [Event.setVsyncEnabled false])
    else (s, [])
  (if makeUnavailable then { p.1 with hwVsyncAvailable := false } else p.1, p.2)

/-- Scheduler::setVsyncPeriod: start a period transition on the
controller; if hardware vsync is disabled or force_resync is set,
reset the tracker, enable vsync at the host and record it enabled. -/
def setVsyncPeriod (period : Int) (force : Bool) (s : SchedState) : SchedState × List Event :=
  if !s.primaryHWVsyncEnabled || force then
    ({ s with primaryHWVsyncEnabled := true },
     [Event.startPeriodTransition period, Event.resetModel, Event.setVsyncEnabled true])
  else (s, [Event.startPeriodTransition period])

/-- Scheduler::resyncToHardwareVsync: when makeAvailable, mark hardware
vsync available; when not available (and not being made available),
return; when the period is not positive, return; else setVsyncPeriod. -/
def resyncToHardwareVsync (makeAvailable : Bool) (period : Int) (force : Bool)
    (s : SchedState) : SchedState × List Event :=
  let s1 := if makeAvailable then { s with hwVsyncAvailable := true } else s
  if !makeAvailable && !s.hwVsyncAvailable then (s, [])
  else if period ≤ 0 then (s1, [])
  else setVsyncPeriod period force s1

/-- kIgnoreDelay of Scheduler::resync: 750 ms in nanoseconds. -/
def kIgnoreDelay : Int := 750000000

/-- The outcome of a resync call: the new state, the outward calls, and
whether the throttle let the call through to resyncToHardwareVsync. -/
structure ResyncResult where
  state : SchedState
  events : List Event
  triggered : Bool
deriving DecidableEq

/-- Scheduler::resync at wall time now: every call stores now as the
last-resync time; only when strictly more than kIgnoreDelay elapsed
since the previously stored time does it call resyncToHardwareVsync
with the current policy period. -/
def resync (c : Ctx) (now : Int) (s : SchedState) : ResyncResult :=
  let last := s.lastResyncTime
  let s1 := { s with lastResyncTime := now }
  if kIgnoreDelay < now - last then
    let r := resyncToHardwareVsync false c.configs.currentRefreshRate.vsyncPeriod false s1
    { state := r.1, events := r.2, triggered := true }
  else { state := s1, events := [], triggered := false }

/-- The scheduler entry points that touch the hardware-vsync state,
with external replies (the controller's needs-more-hw-vsync booleans)
passed as oracle arguments. -/
inductive HwOp
  | enableHw
  | disableHw (makeUnavailable : Bool)
  | resyncHw (makeAvailable : Bool) (period : Int) (force : Bool)
  | sample (controllerNeeds : Bool)
  | fence (controllerNeeds : Bool)
  | resyncTick (now : Int)
deriving DecidableEq

/-- Whether an operation can flip the available flag back on. -/
def makesAvailable : HwOp → Bool
  | HwOp.resyncHw mk _ _ => mk
  | _ => false

/-- Scheduler::addResyncSample: consult the controller only while
enabled; then enable or disable hardware vsync per its reply. -/
def addResyncSample (controllerNeeds : Bool) (s : SchedState) : SchedState × List Event :=
  let needs := s.primaryHWVsyncEnabled && controllerNeeds
  if needs then enableHardwareVsync s else disableHardwareVsync false s

/-- Scheduler::addPresentFence: enable or disable hardware vsync per
the controller's reply to the fence. -/
def addPresentFence (controllerNeeds : Bool) (s : SchedState) : SchedState × List Event :=
  if controllerNeeds then enableHardwareVsync s else disableHardwareVsync false s

/-- One hardware-vsync-related entry point. -/
def hwStep (c : Ctx) (s : SchedState) : HwOp → SchedState × List Event
  | HwOp.enableHw => enableHardwareVsync s
  | HwOp.disableHw b => disableHardwareVsync b s
  | HwOp.resyncHw mk p f => resyncToHardwareVsync mk p f s
  | HwOp.sample r => addResyncSample r s
  | HwOp.fence r => addPresentFence r s
  | HwOp.resyncTick now =>
      let r := resync c now s
      (r.state, r.events)

/-- Run a sequence of hardware-vsync entry points. -/
def runHwOps (c : Ctx) (s : SchedState) : List HwOp → SchedState
  | [] => s
  | op :: rest => runHwOps c (hwStep c s op).1 rest

/-- The outcome of enableVSyncInjection: the new state, the returned
connection handle (none models the default-constructed invalid handle)
and whether a new injector EventThread plus connection was built. -/
structure InjResult where
  state : SchedState
  handle : Option Nat
  constructedThread : Bool
deriving DecidableEq

/-- Scheduler::enableVSyncInjection: returns the invalid handle when
the flag already has the requested value; builds the injector
EventThread and registers its connection the first time injection is
enabled; afterwards just toggles the flag and returns the stored
injector handle. -/
def enableVSyncInjection (enable : Bool) (s : SchedState) : InjResult :=
  if s.injectVSyncs == enable then
    { state := s, handle := none, constructedThread := false }
  else
    match s.injectorHandle with
    | some h =>
        { state := { s with injectVSyncs := enable }, handle := some h
          constructedThread := false }
    | none =>
        let h := s.nextConnectionHandleId
        let s2 := { s with nextConnectionHandleId := h + 1, injectorHandle := some h
                           injectVSyncs := enable }
        { state := s2, handle := some h, constructedThread := true }

/-- A 120 Hz mode with id 0. -/
def rate120 : RefreshRate := { modeId := 0, fps := 120, vsyncPeriod := 8333333 }

/-- A 90 Hz mode with id 1. -/
def rate90 : RefreshRate := { modeId := 1, fps := 90, vsyncPeriod := 11111111 }

/-- A 60 Hz mode with id 2. -/
def rate60 : RefreshRate := { modeId := 2, fps := 60, vsyncPeriod := 16666666 }

/-- A 90.9 Hz mode with id 0, used to exercise the int32 truncation in
the thermal comparison. -/
def rateFrac : RefreshRate :=
  { modeId := 0, fps := ⟨909, 10, by norm_num, by norm_num⟩, vsyncPeriod := 11001100 }

/-- A policy over the modes above that always picks 120 Hz, can switch,
and does not support frame-rate overrides. -/
def baseConfigs : RefreshRateConfigs :=
  { canSwitch := true
    supportsFrameRateOverride := false
    currentRefreshRate := rate60
    refreshRateFromModeId := fun i => if i = 0 then rate120 else if i = 1 then rate90 else rate60
    maxRefreshRateByPolicy := rate120
    bestRefreshRate := fun _ _ _ => (rate120, { touch := false, idle := false })
    frameRateOverrides := fun _ _ _ => [] }

/-- Collaborators whose getModeFromFps always reports mode 1 (90 Hz). -/
def clampCtx : Ctx :=
  { configs := baseConfigs
    getModeFromFps := fun _ => 1
    isVSyncInPhase := fun _ _ => true }

/-- Collaborators, as clampCtx but with frame-rate override support. -/
def supportCtx : Ctx :=
  { configs := { baseConfigs with supportsFrameRateOverride := true }
    getModeFromFps := fun _ => 1
    isVSyncInPhase := fun _ _ => true }

/-- Collaborators whose best rate is the fractional 90.9 Hz mode. -/
def fracCtx : Ctx :=
  { configs := { baseConfigs with
      refreshRateFromModeId := fun i => if i = 0 then rateFrac else rate90
      bestRefreshRate := fun _ _ _ => (rateFrac, { touch := false, idle := false }) }
    getModeFromFps := fun _ => 1
    isVSyncInPhase := fun _ _ => true }

/-- A Features record with no chosen mode and everything quiet. -/
def baseFeatures : Features :=
  { modeId := none
    contentRequirements := 0
    idleTimer := TimerState.Reset
    touch := TouchState.Inactive
    displayPowerTimer := TimerState.Reset
    isDisplayPowerStateNormal := true
    cachedModeChangedParams := none }

/-- A scheduler state as left by construction: hardware vsync available
but disabled, no overrides, no thermal cap, no injection, no timers. -/
def baseState : SchedState :=
  { features := baseFeatures
    overridesBackdoor := []
    overridesByContent := []
    hwVsyncAvailable := true
    primaryHWVsyncEnabled := false
    thermalFps := 0
    injectVSyncs := false
    injectorHandle := none
    nextConnectionHandleId := 0
    lastResyncTime := 0
    hasIdleTimer := false
    hasTouchTimer := false
    hasDisplayPowerTimer := false }

/-- baseState with a 90 Hz thermal cap. -/
def thermalState : SchedState := { baseState with thermalFps := 90 }

/-- baseState with a 90.5 Hz thermal cap. -/
def fracState : SchedState :=
  { baseState with thermalFps := ⟨181, 2, by norm_num, by norm_num⟩ }

/-- baseState with hardware vsync unavailable. -/
def unavailState : SchedState := { baseState with hwVsyncAvailable := false }

/-- The S4 scenario state: content override 45 for uid 42, then the
backdoor override 30 for uid 42 installed through
setPreferredRefreshRateForUid. -/
def shadowState : SchedState :=
  setPreferredRefreshRateForUid { uid := 42, frameRateHz := 30 }
    { baseState with overridesByContent := [(42, 45)] }

/-- baseState already sitting on the mode the policy keeps choosing. -/
def equalState : SchedState :=
  { baseState with features := { baseFeatures with modeId := some 0 } }

/-- A sequence of hardware-vsync operations none of which makes
hardware vsync available again. -/
def hwOpsW : List HwOp :=
  [HwOp.sample true, HwOp.resyncHw false 16666666 false, HwOp.enableHw,
   HwOp.fence false, HwOp.resyncTick 1000000000]

theorem lookupKV_insertKV (l : List (Nat × Rat)) (u : Nat) (f : Rat) :
    lookupKV (insertKV l u f) u = some f := by
  induction l with
  | nil => simp [insertKV, lookupKV]
  | cons p rest ih =>
      by_cases h : p.1 = u
      · simp [insertKV, lookupKV, h]
      · simp [insertKV, lookupKV, h, ih]

theorem lookupKV_eraseKV (l : List (Nat × Rat)) (u : Nat) :
    lookupKV (eraseKV l u) u = none := by
  induction l with
  | nil => rfl
  | cons p rest ih =>
      by_cases h : p.1 = u
      · simp [eraseKV, h, ih]
      · simp [eraseKV, lookupKV, h, ih]

/-- Claim C5: setPreferredRefreshRateForUid drops fps values in the
open interval (0, 1), erases the backdoor entry on fps = 0, and stores
fps into the backdoor map otherwise; consequently storing any value and
then storing 0 leaves no backdoor override for the uid. -/
theorem C5_set_preferred_refresh_rate (s : SchedState) (uid : Nat) (f : Rat) :
    (setPreferredRefreshRateForUid { uid := uid, frameRateHz := f } s =
      if 0 < f ∧ f < 1 then s
      else if f = 0 then { s with overridesBackdoor := eraseKV s.overridesBackdoor uid }
      else { s with overridesBackdoor := insertKV s.overridesBackdoor uid f }) ∧
    lookupKV (setPreferredRefreshRateForUid { uid := uid, frameRateHz := 0 }
      (setPreferredRefreshRateForUid { uid := uid, frameRateHz := f } s)).overridesBackdoor uid
      = none := by
  constructor
  · simp only [setPreferredRefreshRateForUid]
    split_ifs with h1 h2 h3 <;> first | rfl | tauto
  · have hz : ¬((0 : Rat) < 0 ∧ (0 : Rat) < 1) := by norm_num
    simp only [setPreferredRefreshRateForUid]
    rw [if_neg hz, if_neg (by norm_num)]
    exact lookupKV_eraseKV _ _

/-- Claim C10: a negative fps passed to setPreferredRefreshRateForUid
is neither dropped by the (0, 1) guard nor treated as an erase; it is
stored as the backdoor override for the uid. -/
theorem C10_negative_override_stored (s : SchedState) (uid : Nat) (f : Rat) (h : f < 0) :
    setPreferredRefreshRateForUid { uid := uid, frameRateHz := f } s =
      { s with overridesBackdoor := insertKV s.overridesBackdoor uid f } ∧
    lookupKV (setPreferredRefreshRateForUid
      { uid := uid, frameRateHz := f } s).overridesBackdoor uid = some f := by
  have h1 : ¬(0 < f ∧ f < 1) := fun hc => absurd h (not_lt.mpr hc.1.le)
  have h2 : f ≠ 0 := ne_of_lt h
  have e : setPreferredRefreshRateForUid { uid := uid, frameRateHz := f } s =
      { s with overridesBackdoor := insertKV s.overridesBackdoor uid f } := by
    simp only [setPreferredRefreshRateForUid]
    rw [if_neg h1, if_pos h2]
  exact ⟨e, by rw [e]; exact lookupKV_insertKV _ _ _⟩

/-- Claim C10, witnessed at fps = -5 for uid 7 on the base state. -/
theorem C10_negative_override_stored_witness :
    (-5 : Rat) < 0 ∧
    lookupKV (setPreferredRefreshRateForUid
      { uid := 7, frameRateHz := -5 } baseState).overridesBackdoor 7 = some (-5) :=
  ⟨by norm_num, (C10_negative_override_stored baseState 7 (-5) (by norm_num)).2⟩

/-- Claim C7 (amended): the second of two consecutive
enableVSyncInjection(true) calls is a no-op — it changes no state and
constructs nothing — but it returns the invalid default handle, not
the handle returned by the first call. -/
theorem C7_injection_second_call (s : SchedState) :
    (enableVSyncInjection true (enableVSyncInjection true s).state).state
      = (enableVSyncInjection true s).state ∧
    (enableVSyncInjection true (enableVSyncInjection true s).state).constructedThread = false ∧
    (enableVSyncInjection true (enableVSyncInjection true s).state).handle = none := by
  cases hs : s.injectVSyncs
  · cases hh : s.injectorHandle <;> simp [enableVSyncInjection, hs, hh]
  · simp [enableVSyncInjection, hs]

/-- Claim C7, refuted as stated: on the base state the first
enableVSyncInjection(true) returns handle 0 while the second returns
the invalid default handle, so the handles differ. -/
theorem C7_counterexample :
    (enableVSyncInjection true baseState).handle = some 0 ∧
    (enableVSyncInjection true (enableVSyncInjection true baseState).state).handle = none ∧
    ¬((enableVSyncInjection true (enableVSyncInjection true baseState).state).handle
        = (enableVSyncInjection true baseState).handle) := by
  decide

/-- Claim C8 (amended): resyncToHardwareVsync with a non-positive
period emits nothing — no period transition, no setVsyncPeriod, no
setVsyncEnabled — and the only possible state change is that
makeAvailable = true sets the hardware-vsync-available flag before the
period check. -/
theorem C8_invalid_period (mk : Bool) (p : Int) (force : Bool) (s : SchedState)
    (h : p ≤ 0) :
    resyncToHardwareVsync mk p force s
      = ((if mk then { s with hwVsyncAvailable := true } else s), ([] : List Event)) := by
  cases mk
  · cases ha : s.hwVsyncAvailable <;> simp [resyncToHardwareVsync, h, ha]
  · simp [resyncToHardwareVsync, h]

/-- Claim C8, witnessed at period 0 with makeAvailable on the base
state. -/
theorem C8_invalid_period_witness :
    (0 : Int) ≤ 0 ∧
    resyncToHardwareVsync true 0 false baseState
      = ((if true then { baseState with hwVsyncAvailable := true } else baseState),
         ([] : List Event)) :=
  ⟨le_refl 0, C8_invalid_period true 0 false baseState (le_refl 0)⟩

/-- Claim C8, refuted as stated: with hardware vsync unavailable,
resyncToHardwareVsync(makeAvailable = true, period = 0) flips the
available flag, so the scheduler state is not unchanged. -/
theorem C8_counterexample :
    unavailState.hwVsyncAvailable = false ∧
    ((resyncToHardwareVsync true 0 false unavailState).1).hwVsyncAvailable = true ∧
    ¬((resyncToHardwareVsync true 0 false unavailState).1 = unavailState) := by
  decide

/-- Claim C4 (amended): whenever the policy supports frame-rate
overrides, getFrameRateOverride returns the backdoor entry when
present, else the content-derived entry when present, else none; in
particular with backdoor[42] = 30 and byContent[42] = 45 it returns
30, and after erasing backdoor[42] via fps = 0 it returns 45. -/
theorem C4_override_lookup (c : Ctx) (s : SchedState) (uid : Nat)
    (h : c.configs.supportsFrameRateOverride = true) :
    getFrameRateOverride c s uid
      = (match lookupKV s.overridesBackdoor uid with
         | some f => some f
         | none => lookupKV s.overridesByContent uid) ∧
    getFrameRateOverride supportCtx shadowState 42 = some 30 ∧
    getFrameRateOverride supportCtx
      (setPreferredRefreshRateForUid { uid := 42, frameRateHz := 0 } shadowState) 42
      = some 45 := by
  refine ⟨?_, by decide, by decide⟩
  simp [getFrameRateOverride, h]

/-- Claim C4, witnessed on a context with override support at uid 7. -/
theorem C4_override_lookup_witness :
    supportCtx.configs.supportsFrameRateOverride = true ∧
    (getFrameRateOverride supportCtx baseState 7
      = (match lookupKV baseState.overridesBackdoor 7 with
         | some f => some f
         | none => lookupKV baseState.overridesByContent 7) ∧
     getFrameRateOverride supportCtx shadowState 42 = some 30 ∧
     getFrameRateOverride supportCtx
       (setPreferredRefreshRateForUid { uid := 42, frameRateHz := 0 } shadowState) 42
       = some 45) :=
  ⟨rfl, C4_override_lookup supportCtx baseState 7 rfl⟩

/-- Claim C4, refuted as stated: when the policy does not support
frame-rate overrides, a present backdoor entry is not returned. -/
theorem C4_counterexample :
    lookupKV shadowState.overridesBackdoor 42 = some 30 ∧
    getFrameRateOverride clampCtx shadowState 42 = none := by
  decide

/-- Claim C9: when the policy reports supportsFrameRateOverride() as
false, getFrameRateOverride returns none regardless of the override
maps, no throttle callback is produced for connections, and every
vsync is valid (never throttled). -/
theorem C9_no_override_support (c : Ctx) (s : SchedState) (uid : Nat) (ts : Int)
    (h : c.configs.supportsFrameRateOverride = false) :
    getFrameRateOverride c s uid = none ∧
    makeThrottleVsyncCallback c = none ∧
    isVsyncValid c s ts uid = true := by
  have hg : getFrameRateOverride c s uid = none := by
    simp [getFrameRateOverride, h]
  refine ⟨hg, by simp [makeThrottleVsyncCallback, h], ?_⟩
  simp [isVsyncValid, hg]

/-- Claim C9, witnessed on clampCtx (no override support) with a
backdoor entry present. -/
theorem C9_no_override_support_witness :
    clampCtx.configs.supportsFrameRateOverride = false ∧
    (getFrameRateOverride clampCtx shadowState 42 = none ∧
     makeThrottleVsyncCallback clampCtx = none ∧
     isVsyncValid clampCtx shadowState 100 42 = true) :=
  ⟨rfl, C9_no_override_support clampCtx shadowState 42 100 rfl⟩

/-- Claim C3 (amended): resync triggers resyncToHardwareVsync exactly
when strictly more than 750 ms elapsed since the previous resync call
(every call, triggering or not, stores its time); in the 0/700/800 ms
scenario only the first call triggers — the third call comes 100 ms
after the second, which refreshed the timestamp, so it does not
trigger. -/
theorem C3_resync_throttle (c : Ctx) (now : Int) (s : SchedState) :
    ((resync c now s).triggered = decide (kIgnoreDelay < now - s.lastResyncTime)) ∧
    (resync clampCtx 1000000000 baseState).triggered = true ∧
    (resync clampCtx 1700000000 (resync clampCtx 1000000000 baseState).state).triggered
      = false ∧
    (resync clampCtx 1800000000
      (resync clampCtx 1700000000
        (resync clampCtx 1000000000 baseState).state).state).triggered = false := by
  refine ⟨?_, by decide, by decide, by decide⟩
  by_cases h : kIgnoreDelay < now - s.lastResyncTime <;> simp [resync, h]

/-- Claim C3, refuted as stated: in the 0/700/800 ms call sequence the
first call triggers but the third call (at 800 ms, 100 ms after the
second) does not trigger resyncToHardwareVsync again. -/
theorem C3_counterexample :
    (resync clampCtx 1000000000 baseState).triggered = true ∧
    ¬((resync clampCtx 1800000000
        (resync clampCtx 1700000000
          (resync clampCtx 1000000000 baseState).state).state).triggered = true) := by
  decide

theorem enableHardwareVsync_noop (s : SchedState)
    (h : s.primaryHWVsyncEnabled = true ∨ s.hwVsyncAvailable = false) :
    enableHardwareVsync s = (s, []) := by
  rcases h with h | h <;> simp [enableHardwareVsync, h]

theorem disableHardwareVsync_unavailable (s : SchedState) :
    ((disableHardwareVsync true s).1).hwVsyncAvailable = false := by
  simp [disableHardwareVsync]

theorem hwStep_keeps_unavailable (c : Ctx) (s : SchedState) (op : HwOp)
    (h : s.hwVsyncAvailable = false) (hm : makesAvailable op = false) :
    ((hwStep c s op).1).hwVsyncAvailable = false := by
  cases op with
  | enableHw =>
      simp only [hwStep]
      rw [enableHardwareVsync_noop s (Or.inr h)]
      exact h
  | disableHw b =>
      simp only [hwStep, disableHardwareVsync]
      cases b <;> split_ifs <;> simp [h]
  | resyncHw mk p f =>
      simp only [makesAvailable] at hm
      subst hm
      simp [hwStep, resyncToHardwareVsync, h]
  | sample r =>
      simp only [hwStep, addResyncSample]
      split_ifs
      · rw [enableHardwareVsync_noop s (Or.inr h)]; exact h
      · simp only [disableHardwareVsync]
        split_ifs <;> simp [h]
  | fence r =>
      simp only [hwStep, addPresentFence]
      split_ifs
      · rw [enableHardwareVsync_noop s (Or.inr h)]; exact h
      · simp only [disableHardwareVsync]
        split_ifs <;> simp [h]
  | resyncTick now =>
      simp only [hwStep, resync]
      split_ifs with ht
      · simp [resyncToHardwareVsync, h]
      · exact h

theorem runHwOps_keeps_unavailable (c : Ctx) (ops : List HwOp) (s : SchedState)
    (h : s.hwVsyncAvailable = false) (hm : ∀ op ∈ ops, makesAvailable op = false) :
    (runHwOps c s ops).hwVsyncAvailable = false := by
  induction ops generalizing s with
  | nil => exact h
  | cons op rest ih =>
      simp only [runHwOps]
      exact ih (hwStep c s op).1
        (hwStep_keeps_unavailable c s op h (hm op (by simp)))
        (fun o ho => hm o (by simp [ho]))

/-- Claim C6: after disableHardwareVsync(true) the available flag is
false and stays false under any sequence of hardware-vsync operations
that never passes makeAvailable = true to resyncToHardwareVsync; in
every such reachable state enableHardwareVsync is a no-op (no tracker
reset, no setVsyncEnabled(true), no enabled flag); and in general
enableHardwareVsync acts only when not enabled and available. -/
theorem C6_hw_vsync_disable_invariant (c : Ctx) (s : SchedState) (ops : List HwOp)
    (hm : ∀ op ∈ ops, makesAvailable op = false) :
    ((disableHardwareVsync true s).1).hwVsyncAvailable = false ∧
    (runHwOps c (disableHardwareVsync true s).1 ops).hwVsyncAvailable = false ∧
    enableHardwareVsync (runHwOps c (disableHardwareVsync true s).1 ops)
      = (runHwOps c (disableHardwareVsync true s).1 ops, []) ∧
    (∀ t : SchedState, t.primaryHWVsyncEnabled = true ∨ t.hwVsyncAvailable = false →
      enableHardwareVsync t = (t, [])) := by
  have h0 := disableHardwareVsync_unavailable s
  have h1 := runHwOps_keeps_unavailable c ops (disableHardwareVsync true s).1 h0 hm
  exact ⟨h0, h1, enableHardwareVsync_noop _ (Or.inr h1),
    fun t ht => enableHardwareVsync_noop t ht⟩

/-- Claim C6, witnessed on the base state with a concrete operation
sequence that never makes hardware vsync available again. -/
theorem C6_hw_vsync_disable_invariant_witness :
    (∀ op ∈ hwOpsW, makesAvailable op = false) ∧
    (runHwOps clampCtx (disableHardwareVsync true baseState).1 hwOpsW).hwVsyncAvailable
      = false ∧
    enableHardwareVsync (runHwOps clampCtx (disableHardwareVsync true baseState).1 hwOpsW)
      = (runHwOps clampCtx (disableHardwareVsync true baseState).1 hwOpsW, []) ∧
    enableHardwareVsync unavailState = (unavailState, []) := by
  have h := C6_hw_vsync_disable_invariant clampCtx baseState hwOpsW (by decide)
  exact ⟨by decide, h.2.1, h.2.2.1, h.2.2.2 unavailState (Or.inr rfl)⟩

theorem countChange_nil : countChange [] = 0 := rfl

theorem countChange_append (a b : List Event) :
    countChange (a ++ b) = countChange a + countChange b := by
  simp [countChange, List.filter_append]

theorem countChange_fro (b : Bool) :
    countChange (if b then [Event.triggerOnFrameRateOverridesChanged] else []) = 0 := by
  cases b <;> rfl

theorem countChange_trigger :
    countChange [Event.triggerOnFrameRateOverridesChanged] = 0 := rfl

theorem countChange_cons_change (r : RefreshRate) (e : ModeEvent) (l : List Event) :
    countChange (Event.changeRefreshRate r e :: l) = countChange l + 1 := by
  simp [countChange, List.filter, isChangeEvent]

theorem updateFRO_features (c : Ctx) (sig : GlobalSignals) (fr : Rat) (s : SchedState) :
    ((updateFrameRateOverrides c sig fr s).1).features = s.features := by
  simp only [updateFrameRateOverrides]
  split_ifs <;> rfl

theorem updateFRO_thermal (c : Ctx) (sig : GlobalSignals) (fr : Rat) (s : SchedState) :
    ((updateFrameRateOverrides c sig fr s).1).thermalFps = s.thermalFps := by
  simp only [updateFrameRateOverrides]
  split_ifs <;> rfl

theorem updateFRO_decisionInputs (c : Ctx) (sig : GlobalSignals) (fr : Rat) (s : SchedState) :
    decisionInputs ((updateFrameRateOverrides c sig fr s).1) = decisionInputs s := by
  simp only [updateFrameRateOverrides]
  split_ifs <;> rfl

theorem updateFRO_modeId (c : Ctx) (sig : GlobalSignals) (fr : Rat) (s : SchedState) :
    ((updateFrameRateOverrides c sig fr s).1).features.modeId = s.features.modeId := by
  rw [updateFRO_features]

theorem dispatchCRM_modeId (c : Ctx) (s : SchedState) :
    ((dispatchCachedReportedMode c s).1).features.modeId = s.features.modeId := by
  unfold dispatchCachedReportedMode
  cases h : s.features.modeId with
  | none => exact h
  | some m =>
      cases hc : s.features.cachedModeChangedParams with
      | none => simp [h]
      | some cached =>
          dsimp only
          split_ifs <;> simp [h]

theorem dispatchCRM_decisionInputs (c : Ctx) (s : SchedState) :
    decisionInputs ((dispatchCachedReportedMode c s).1) = decisionInputs s := by
  unfold dispatchCachedReportedMode
  cases h : s.features.modeId with
  | none => rfl
  | some m =>
      cases hc : s.features.cachedModeChangedParams with
      | none => rfl
      | some cached =>
          dsimp only
          split_ifs <;> rfl

theorem dispatchCRM_countChange (c : Ctx) (s : SchedState) :
    countChange ((dispatchCachedReportedMode c s).2) = 0 := by
  unfold dispatchCachedReportedMode
  cases h : s.features.modeId with
  | none => rfl
  | some m =>
      cases hc : s.features.cachedModeChangedParams with
      | none => rfl
      | some cached =>
          dsimp only
          split_ifs <;> rfl

theorem runDecisionCore_equal (c : Ctx) (s : SchedState)
    (h : s.features.modeId = some (chosenModeId c s)) :
    countChange (runDecisionCore c s).events = 0 ∧
    (runDecisionCore c s).replayInvoked = !(chosenSignals c s).idle ∧
    (runDecisionCore c s).state.features.modeId = s.features.modeId ∧
    decisionInputs (runDecisionCore c s).state = decisionInputs s := by
  simp only [chosenModeId, chosenSignals] at h ⊢
  simp only [runDecisionCore, updateFRO_modeId]
  rw [if_pos h]
  cases hidle : (calculateRefreshRateModeId c s).2.idle
  · simp only [Bool.false_eq_true, if_false]
    refine ⟨?_, by simp, ?_, ?_⟩
    · rw [countChange_append, dispatchCRM_countChange, countChange_fro]
    · rw [dispatchCRM_modeId, updateFRO_modeId]
    · rw [dispatchCRM_decisionInputs, updateFRO_decisionInputs]
  · simp only [if_true]
    exact ⟨countChange_fro _, by simp, updateFRO_modeId c _ _ s,
      updateFRO_decisionInputs c _ _ s⟩

theorem runDecisionCore_count_le_one (c : Ctx) (s : SchedState) :
    countChange (runDecisionCore c s).events ≤ 1 := by
  simp only [runDecisionCore, updateFRO_modeId]
  split_ifs <;>
    simp [countChange_append, countChange_nil, countChange_trigger,
      dispatchCRM_countChange, countChange_cons_change]

theorem runDecisionCore_decisionInputs (c : Ctx) (s : SchedState) :
    decisionInputs (runDecisionCore c s).state = decisionInputs s := by
  simp only [runDecisionCore]
  split_ifs <;> dsimp only <;>
    first
      | exact updateFRO_decisionInputs c _ _ s
      | (rw [dispatchCRM_decisionInputs]; exact updateFRO_decisionInputs c _ _ s)

theorem runDecisionCore_unequal_modeId (c : Ctx) (s : SchedState)
    (h : ¬ s.features.modeId = some (chosenModeId c s))
    (hnc : noClampRedirect c s) :
    (runDecisionCore c s).state.features.modeId = some (chosenModeId c s) := by
  simp only [noClampRedirect] at hnc
  simp only [chosenModeId] at h hnc ⊢
  simp only [runDecisionCore, updateFRO_modeId]
  rw [if_neg h]
  simp only [updateFRO_thermal]
  split_ifs with hcl
  · simp only [Bool.and_eq_true, decide_eq_true_eq] at hcl
    exact congrArg some (hnc hcl.1 hcl.2)
  · rfl

theorem runDecisionCore_clamped (c : Ctx) (s : SchedState)
    (hm : ¬ s.features.modeId = some (chosenModeId c s))
    (hth : (0 : Rat) < s.thermalFps)
    (hcmp : i32trunc s.thermalFps
        < i32trunc (c.configs.refreshRateFromModeId (chosenModeId c s)).fps) :
    (runDecisionCore c s).state.features.modeId = some (c.getModeFromFps s.thermalFps) ∧
    (runDecisionCore c s).events.head?
      = some (Event.changeRefreshRate
          (c.configs.refreshRateFromModeId (c.getModeFromFps s.thermalFps))
          (if (chosenSignals c s).idle then ModeEvent.None else ModeEvent.Changed)) := by
  simp only [chosenModeId, chosenSignals] at hm hcmp ⊢
  simp only [runDecisionCore, updateFRO_modeId]
  rw [if_neg hm]
  simp only [updateFRO_thermal]
  have hcl : (decide ((0 : Rat) < s.thermalFps) &&
      decide (i32trunc s.thermalFps <
        i32trunc (c.configs.refreshRateFromModeId
          ((calculateRefreshRateModeId c s).1)).fps)) = true := by
    simp [hth, hcmp]
  rw [hcl]
  simp

theorem slotEq_congr (s1 s2 : SchedState) (arg : TimerArg)
    (h : decisionInputs s1 = decisionInputs s2) :
    slotEq s1.features arg = slotEq s2.features arg := by
  cases arg with
  | idleArg v =>
      have h1 : s1.features.idleTimer = s2.features.idleTimer :=
        congrArg DecisionInputs.idleTimer h
      simp [slotEq, h1]
  | touchArg v =>
      have h1 : s1.features.touch = s2.features.touch :=
        congrArg DecisionInputs.touch h
      simp [slotEq, h1]
  | powerArg v =>
      have h1 : s1.features.displayPowerTimer = s2.features.displayPowerTimer :=
        congrArg DecisionInputs.displayPowerTimer h
      simp [slotEq, h1]

theorem slotEq_setSlot (f : Features) (arg : TimerArg) :
    slotEq (setSlot f arg) arg = true := by
  cases arg <;> simp [slotEq, setSlot]

theorem runModeSelection_pipeline (c : Ctx) (inp : RunInput) (s : SchedState)
    (h : runsPipeline c s inp) :
    runModeSelection c inp s = runDecisionCore c (inputApplied s inp) := by
  cases inp with
  | content summary =>
      simp only [runsPipeline] at h
      simp [runModeSelection, chooseRefreshRateForContent, inputApplied, h]
  | timer arg =>
      simp only [runsPipeline] at h
      simp [runModeSelection, handleTimerStateChanged, inputApplied, h]

theorem runModeSelection_skip (c : Ctx) (inp : RunInput) (s : SchedState)
    (h : ¬ runsPipeline c s inp) :
    runModeSelection c inp s = noRun s := by
  cases inp with
  | content summary =>
      simp only [runsPipeline, Bool.not_eq_true] at h
      simp [runModeSelection, chooseRefreshRateForContent, h]
  | timer arg =>
      simp only [runsPipeline, Bool.not_eq_false] at h
      simp [runModeSelection, handleTimerStateChanged, h]

theorem runModeSelection_count_le_one (c : Ctx) (inp : RunInput) (s : SchedState) :
    countChange (runModeSelection c inp s).events ≤ 1 := by
  by_cases hp : runsPipeline c s inp
  · rw [runModeSelection_pipeline c inp s hp]
    exact runDecisionCore_count_le_one c (inputApplied s inp)
  · rw [runModeSelection_skip c inp s hp]
    simp [noRun, countChange]

theorem decisionInputs_content (t : SchedState) (summary : Nat) :
    decisionInputs (inputApplied t (RunInput.content summary))
      = { decisionInputs t with contentRequirements := summary } := rfl

theorem second_run_no_change (c : Ctx) (inp : RunInput) (s : SchedState)
    (hp : runsPipeline c s inp)
    (hnc : noClampRedirect c (inputApplied s inp))
    (hm : ¬ (inputApplied s inp).features.modeId
        = some (chosenModeId c (inputApplied s inp))) :
    countChange (runModeSelection c inp
      (runDecisionCore c (inputApplied s inp)).state).events = 0 := by
  cases inp with
  | timer arg =>
      have hdi := runDecisionCore_decisionInputs c (inputApplied s (RunInput.timer arg))
      have hs : slotEq
          (runDecisionCore c (inputApplied s (RunInput.timer arg))).state.features arg
          = true := by
        rw [slotEq_congr _ _ arg hdi]
        exact slotEq_setSlot s.features arg
      simp [runModeSelection, handleTimerStateChanged, hs, noRun, countChange]
  | content summary =>
      have hdi := runDecisionCore_decisionInputs c (inputApplied s (RunInput.content summary))
      have e1 : decisionInputs (inputApplied
            (runDecisionCore c (inputApplied s (RunInput.content summary))).state
            (RunInput.content summary))
          = { decisionInputs
                (runDecisionCore c (inputApplied s (RunInput.content summary))).state with
              contentRequirements := summary } := rfl
      have e2 : decisionInputs (inputApplied s (RunInput.content summary))
          = { decisionInputs s with contentRequirements := summary } := rfl
      have hdi2 : decisionInputs (inputApplied
            (runDecisionCore c (inputApplied s (RunInput.content summary))).state
            (RunInput.content summary))
          = decisionInputs (inputApplied s (RunInput.content summary)) := by
        rw [e1, hdi, e2]
      have hch : calculateRefreshRateModeId c
            (inputApplied
              (runDecisionCore c (inputApplied s (RunInput.content summary))).state
              (RunInput.content summary))
          = calculateRefreshRateModeId c (inputApplied s (RunInput.content summary)) := by
        unfold calculateRefreshRateModeId
        exact congrArg (calcRefreshRateModeIdFrom c) hdi2
      have hm2 : (inputApplied
            (runDecisionCore c (inputApplied s (RunInput.content summary))).state
            (RunInput.content summary)).features.modeId
          = some (chosenModeId c (inputApplied
              (runDecisionCore c (inputApplied s (RunInput.content summary))).state
              (RunInput.content summary))) := by
        show (runDecisionCore c
            (inputApplied s (RunInput.content summary))).state.features.modeId = _
        rw [runDecisionCore_unequal_modeId c (inputApplied s (RunInput.content summary))
          hm hnc]
        simp only [chosenModeId]
        rw [hch]
      have hp2 : runsPipeline c
          (runDecisionCore c (inputApplied s (RunInput.content summary))).state
          (RunInput.content summary) := hp
      rw [runModeSelection_pipeline c (RunInput.content summary)
        (runDecisionCore c (inputApplied s (RunInput.content summary))).state hp2]
      exact (runDecisionCore_equal c _ hm2).1

/-- Claim C1 (amended): for every mode-selection run
(chooseRefreshRateForContent or handleTimerStateChanged after a state
change), when the newly chosen modeId equals the last stored modeId no
changeRefreshRate callback is emitted and the cached mode-changed
params replay (dispatchCachedReportedMode) is invoked exactly when
consideredSignals.idle is false; and two back-to-back runs with
identical inputs emit at most one changeRefreshRate provided the
thermal clamp does not redirect the chosen mode to a different mode
id — when it does, the stored (clamped) mode never equals the
policy's choice and every run re-emits. -/
theorem C1_mode_selection (c : Ctx) (inp : RunInput) (s : SchedState) :
    (runsPipeline c s inp →
      (inputApplied s inp).features.modeId
        = some (chosenModeId c (inputApplied s inp)) →
      countChange (runModeSelection c inp s).events = 0 ∧
      (runModeSelection c inp s).replayInvoked
        = !(chosenSignals c (inputApplied s inp)).idle) ∧
    (noClampRedirect c (inputApplied s inp) →
      countChange ((runModeSelection c inp s).events
        ++ (runModeSelection c inp (runModeSelection c inp s).state).events) ≤ 1) := by
  constructor
  · intro hp hm
    rw [runModeSelection_pipeline c inp s hp]
    have h := runDecisionCore_equal c (inputApplied s inp) hm
    exact ⟨h.1, h.2.1⟩
  · intro hnc
    by_cases hp : runsPipeline c s inp
    · rw [runModeSelection_pipeline c inp s hp, countChange_append]
      by_cases hm : (inputApplied s inp).features.modeId
          = some (chosenModeId c (inputApplied s inp))
      · rw [(runDecisionCore_equal c (inputApplied s inp) hm).1]
        simpa using runModeSelection_count_le_one c inp
          (runDecisionCore c (inputApplied s inp)).state
      · rw [second_run_no_change c inp s hp hnc hm]
        simpa using runDecisionCore_count_le_one c (inputApplied s inp)
    · rw [runModeSelection_skip c inp s hp]
      have h2 : runModeSelection c inp (noRun s).state = noRun s :=
        runModeSelection_skip c inp s hp
      rw [h2]
      simp [noRun, countChange]

/-- Claim C1, witnessed on a content run that re-selects the stored
mode with no thermal cap. -/
theorem C1_mode_selection_witness :
    (runsPipeline clampCtx equalState (RunInput.content 0) ∧
     (inputApplied equalState (RunInput.content 0)).features.modeId
       = some (chosenModeId clampCtx (inputApplied equalState (RunInput.content 0))) ∧
     noClampRedirect clampCtx (inputApplied equalState (RunInput.content 0))) ∧
    countChange (runModeSelection clampCtx (RunInput.content 0) equalState).events = 0 ∧
    (runModeSelection clampCtx (RunInput.content 0) equalState).replayInvoked
      = !(chosenSignals clampCtx (inputApplied equalState (RunInput.content 0))).idle ∧
    countChange ((runModeSelection clampCtx (RunInput.content 0) equalState).events
      ++ (runModeSelection clampCtx (RunInput.content 0)
          (runModeSelection clampCtx (RunInput.content 0) equalState).state).events) ≤ 1 := by
  have h := C1_mode_selection clampCtx (RunInput.content 0) equalState
  refine ⟨⟨by decide, by decide, by decide⟩, ?_, ?_, ?_⟩
  · exact (h.1 (by decide) (by decide)).1
  · exact (h.1 (by decide) (by decide)).2
  · exact h.2 (by decide)

/-- Claim C1, refuted as stated: with a 90 Hz thermal cap and the
policy choosing 120 Hz, two back-to-back content runs with identical
inputs emit two changeRefreshRate callbacks, because the stored mode is
the clamped 90 Hz one and never equals the policy's 120 Hz choice. -/
theorem C1_counterexample :
    countChange ((chooseRefreshRateForContent clampCtx 0 thermalState).events
      ++ (chooseRefreshRateForContent clampCtx 0
          (chooseRefreshRateForContent clampCtx 0 thermalState).state).events) = 2 := by
  decide

/-- Claim C2 (amended): on a mode-selection run whose chosen mode
differs from the stored one, when thermalFps > 0 and the int32
truncation of the chosen mode's fps exceeds the int32 truncation of
thermalFps (the code compares (int32_t) casts, not exact fps values),
the adopted mode id and the reported refresh rate are those of the
host's getModeFromFps(thermalFps), not the policy's choice. -/
theorem C2_thermal_clamp (c : Ctx) (inp : RunInput) (s : SchedState)
    (hp : runsPipeline c s inp)
    (hm : ¬ (inputApplied s inp).features.modeId
        = some (chosenModeId c (inputApplied s inp)))
    (hth : (0 : Rat) < (inputApplied s inp).thermalFps)
    (hcmp : i32trunc (inputApplied s inp).thermalFps
        < i32trunc (c.configs.refreshRateFromModeId
            (chosenModeId c (inputApplied s inp))).fps) :
    (runModeSelection c inp s).state.features.modeId
      = some (c.getModeFromFps (inputApplied s inp).thermalFps) ∧
    (runModeSelection c inp s).events.head?
      = some (Event.changeRefreshRate
          (c.configs.refreshRateFromModeId
            (c.getModeFromFps (inputApplied s inp).thermalFps))
          (if (chosenSignals c (inputApplied s inp)).idle then ModeEvent.None
           else ModeEvent.Changed)) := by
  rw [runModeSelection_pipeline c inp s hp]
  exact runDecisionCore_clamped c (inputApplied s inp) hm hth hcmp

/-- Claim C2, witnessed with thermalFps = 90 and the policy choosing
the 120 Hz mode: the 90 Hz mode from getModeFromFps is adopted and
reported. -/
theorem C2_thermal_clamp_witness :
    (runsPipeline clampCtx thermalState (RunInput.content 0) ∧
     ¬ (inputApplied thermalState (RunInput.content 0)).features.modeId
        = some (chosenModeId clampCtx (inputApplied thermalState (RunInput.content 0))) ∧
     (0 : Rat) < (inputApplied thermalState (RunInput.content 0)).thermalFps ∧
     i32trunc (inputApplied thermalState (RunInput.content 0)).thermalFps
       < i32trunc (clampCtx.configs.refreshRateFromModeId
           (chosenModeId clampCtx (inputApplied thermalState (RunInput.content 0)))).fps) ∧
    (runModeSelection clampCtx (RunInput.content 0) thermalState).state.features.modeId
      = some (clampCtx.getModeFromFps
          (inputApplied thermalState (RunInput.content 0)).thermalFps) ∧
    (runModeSelection clampCtx (RunInput.content 0) thermalState).events.head?
      = some (Event.changeRefreshRate
          (clampCtx.configs.refreshRateFromModeId
            (clampCtx.getModeFromFps
              (inputApplied thermalState (RunInput.content 0)).thermalFps))
          (if (chosenSignals clampCtx (inputApplied thermalState (RunInput.content 0))).idle
           then ModeEvent.None else ModeEvent.Changed)) := by
  refine ⟨⟨by decide, by decide, by decide, by decide⟩, ?_⟩
  exact C2_thermal_clamp clampCtx (RunInput.content 0) thermalState
    (by decide) (by decide) (by decide) (by decide)

/-- Claim C2, refuted as stated: with thermalFps = 90.5 and the chosen
mode at 90.9 Hz the claim's hypotheses hold (90.9 > 90.5), yet the
code's int32 comparison sees 90 > 90 as false, so the policy's mode is
adopted, not the host's getModeFromFps mode. -/
theorem C2_counterexample :
    ((0 : Rat) < fracState.thermalFps ∧
     fracState.thermalFps
       < (fracCtx.configs.refreshRateFromModeId
           (chosenModeId fracCtx (inputApplied fracState (RunInput.content 0)))).fps ∧
     ¬ (inputApplied fracState (RunInput.content 0)).features.modeId
        = some (chosenModeId fracCtx (inputApplied fracState (RunInput.content 0)))) ∧
    ¬ ((chooseRefreshRateForContent fracCtx 0 fracState).state.features.modeId
        = some (fracCtx.getModeFromFps fracState.thermalFps)) := by
  decide

end Sched
